import Mathlib

/-
Shallow embedding of the aider-agent repository (src/aider), covering the
I/O bridge (api_aider.py), the agent conversation loop (api_helpers.py)
and the repository/PR automation (api_agent.py, api.py).  Python stdlib
behaviour (re.search on the two fixed patterns, json.loads, posixpath
normalisation, str conversion) is modelled explicitly; external
collaborators (the wrapped aider engine, GitPython, the HTTP client) are
modelled as oracles or action scripts, as noted at each definition.
-/

namespace AiderSpec

/-- Contiguous-sublist test on lists of characters. -/
def listInfix (needle : List Char) : List Char → Bool
  | [] => needle.isEmpty
  | c :: cs => needle.isPrefixOf (c :: cs) || listInfix needle cs

/-- Substring test, modelling the Python `in` operator on strings. -/
def strIn (needle haystack : String) : Bool :=
  listInfix needle.data haystack.data

/-- Strict code-point lexicographic order on character lists, the order
Python uses to compare strings. -/
def listStrLt : List Char → List Char → Bool
  | [], [] => false
  | [], _ :: _ => true
  | _ :: _, [] => false
  | a :: as, b :: bs =>
    if a.toNat < b.toNat then true
    else if b.toNat < a.toNat then false
    else listStrLt as bs

/-- Non-strict code-point lexicographic order on strings. -/
def pyStrLe (a b : String) : Bool :=
  ¬ listStrLt b.data a.data

/-- Stable insertion of a string into a sorted list, placing the new
element after all existing elements that are `≤` it (code-point
lexicographic order, as Python compares strings). -/
def insertSorted (x : String) : List String → List String
  | [] => [x]
  | y :: ys => if pyStrLe y x then y :: insertSorted x ys else x :: y :: ys

/-- Models the Python builtin `sorted` on lists of strings: stable,
ascending by code-point lexicographic order. -/
def pySorted (l : List String) : List String :=
  l.foldl (fun acc x => insertSorted x acc) []

/-- Prefix test on strings by their character lists. -/
def strStartsWith (s pre : String) : Bool :=
  pre.data.isPrefixOf s.data

/-- Suffix test on strings by their character lists. -/
def strEndsWith (s suf : String) : Bool :=
  suf.data.reverse.isPrefixOf s.data.reverse

/-- Split a character list on a separator character, keeping empty
pieces, as Python `str.split(sep)` does. -/
def splitOnCharAux (sep : Char) : List Char → List Char → List String
  | [], acc => [String.mk acc.reverse]
  | c :: cs, acc =>
    if c = sep then String.mk acc.reverse :: splitOnCharAux sep cs []
    else splitOnCharAux sep cs (c :: acc)

/-- Split a string on a separator character. -/
def splitOnChar (sep : Char) (s : String) : List String :=
  splitOnCharAux sep s.data []

/-- Join strings with a separator. -/
def joinStrings (sep : String) : List String → String
  | [] => ""
  | [s] => s
  | s :: rest => s ++ sep ++ joinStrings sep rest

/-- Models `posixpath.normpath`: collapse empty and `.` components,
resolve `..`, preserve the leading-slash count (two slashes are kept as
the POSIX special case). -/
def normpath (p : String) : String :=
  let initialSlashes : Nat :=
    if strStartsWith p "/" then
      if strStartsWith p "//" ∧ ¬ strStartsWith p "///" then 2 else 1
    else 0
  let comps := splitOnChar '/' p
  let newComps := comps.foldl (fun acc comp =>
    if comp = "" ∨ comp = "." then acc
    else if comp ≠ ".." ∨ (initialSlashes = 0 ∧ acc = []) ∨ acc.getLast? = some ".." then
      acc ++ [comp]
    else if acc ≠ [] then acc.dropLast
    else acc) []
  let joined := String.mk (List.replicate initialSlashes '/') ++ joinStrings "/" newComps
  if joined = "" then "." else joined

/-- Models `posixpath.join` on two arguments. -/
def joinPath (a b : String) : String :=
  if strStartsWith b "/" then b
  else if a = "" ∨ strEndsWith a "/" then a ++ b
  else a ++ "/" ++ b

/-- Models `posixpath.abspath` with an explicit current working
directory: make the path absolute against `cwd`, then normalise. -/
def abspath (cwd p : String) : String :=
  normpath (if strStartsWith p "/" then p else joinPath cwd p)

/-- A character of the Python `\s` class (ASCII part; the source uses
default `re` flags on `str`, whose extra Unicode spaces never occur in
the messages at issue). -/
def isPySpace (c : Char) : Bool :=
  c = ' ' ∨ c = '\t' ∨ c = '\n' ∨ c = '\r' ∨ c = '\x0b' ∨ c = '\x0c'

/-- A character of the class `[\d\.kM]` from the token/cost pattern in
`APIInputOutput._parse_tokens_and_costs` (api_aider.py line 94): note the
lowercase `k` and the uppercase `M`. -/
def isTokenChar (c : Char) : Bool :=
  c.isDigit ∨ c = '.' ∨ c = 'k' ∨ c = 'M'

/-- A character of the class `[\d\.]` used for the two cost groups. -/
def isCostChar (c : Char) : Bool :=
  c.isDigit ∨ c = '.'

/-- Consume an exact literal character sequence, or fail. -/
def dropLiteral : List Char → List Char → Option (List Char)
  | [], cs => some cs
  | _ :: _, [] => none
  | l :: ls, c :: cs => if c = l then dropLiteral ls cs else none

/-- Attempt the token/cost regular expression anchored at the head of
`cs`, returning the four captured groups.  Pattern (api_aider.py line
94): `Tokens:\s*([\d\.kM]+)\s*sent,\s*([\d\.kM]+)\s*received\. Cost:\s*\$([\d\.]+)\s*message,\s*\$([\d\.]+)\s*session\.`
Greedy capture is implemented as maximal munch, which is equivalent here
because each character class is disjoint from the character that must
follow it. -/
def matchTokensAt (cs : List Char) : Option (String × String × String × String) := do
  let cs ← dropLiteral "Tokens:".data cs
  let cs := cs.dropWhile isPySpace
  let g1 := cs.takeWhile isTokenChar
  if g1 = [] then none else
  let cs := cs.dropWhile isTokenChar
  let cs := cs.dropWhile isPySpace
  let cs ← dropLiteral "sent,".data cs
  let cs := cs.dropWhile isPySpace
  let g2 := cs.takeWhile isTokenChar
  if g2 = [] then none else
  let cs := cs.dropWhile isTokenChar
  let cs := cs.dropWhile isPySpace
  let cs ← dropLiteral "received. Cost:".data cs
  let cs := cs.dropWhile isPySpace
  let cs ← dropLiteral "$".data cs
  let g3 := cs.takeWhile isCostChar
  if g3 = [] then none else
  let cs := cs.dropWhile isCostChar
  let cs := cs.dropWhile isPySpace
  let cs ← dropLiteral "message,".data cs
  let cs := cs.dropWhile isPySpace
  let cs ← dropLiteral "$".data cs
  let g4 := cs.takeWhile isCostChar
  if g4 = [] then none else
  let cs := cs.dropWhile isCostChar
  let cs := cs.dropWhile isPySpace
  let _ ← dropLiteral "session.".data cs
  some (String.mk g1, String.mk g2, String.mk g3, String.mk g4)

/-- Models `re.search` with the token/cost pattern: try the anchored
match at each position from the left, returning the first success. -/
def searchTokens : List Char → Option (String × String × String × String)
  | [] => none
  | c :: cs => (matchTokensAt (c :: cs)).orElse (fun _ => searchTokens cs)

/-- Numeric value of a list of decimal digit characters. -/
def digitsToNat (cs : List Char) : Nat :=
  cs.foldl (fun a c => a * 10 + (c.toNat - 48)) 0

/-- A nonnegative decimal value `mant / 10 ^ scale`: the exact value of
the Python floats arising in `parse_tokens`.  The source computes with
IEEE doubles; at every concrete input appearing in the theorems below
the double computation and the exact decimal computation agree. -/
structure DecFloat where
  mant : Nat
  scale : Nat
  deriving Repr, DecidableEq

/-- Multiply a decimal value by `10 ^ k`. -/
def decMulPow10 (d : DecFloat) (k : Nat) : DecFloat :=
  { d with mant := d.mant * 10 ^ k }

/-- Models the Python builtin `float` restricted to the strings reachable
from the token pattern (digits, dots and leftover suffix letters):
accepts a string of digits with at most one dot and at least one digit,
rejecting anything else with a ValueError (`none`). -/
def pyFloat (s : String) : Option DecFloat :=
  let cs := s.data
  if cs.any (fun c => ¬ (c.isDigit ∨ c = '.')) then none
  else if 1 < (cs.filter (fun c => c = '.')).length then none
  else if ¬ cs.any Char.isDigit then none
  else
    let intPart := cs.takeWhile Char.isDigit
    let rest := cs.dropWhile Char.isDigit
    let fracPart := rest.drop 1
    some { mant := digitsToNat (intPart ++ fracPart), scale := fracPart.length }

/-- Models Python `int()` on the nonnegative float values at hand:
truncation toward zero, i.e. the floor of `mant / 10 ^ scale`. -/
def pyIntTrunc (d : DecFloat) : Nat :=
  d.mant / 10 ^ d.scale

/-- ASCII lowercasing of a character, as `str.lower` acts on the
characters reachable from the token pattern. -/
def charToLower (c : Char) : Char :=
  if 'A' ≤ c ∧ c ≤ 'Z' then Char.ofNat (c.toNat + 32) else c

/-- Models `str.lower` on the strings at hand. -/
def strToLower (s : String) : String :=
  String.mk (s.data.map charToLower)

/-- Models the Python `in` operator between a character and a string. -/
def strContainsChar (s : String) (c : Char) : Bool :=
  s.data.any (fun x => x = c)

/-- Models `str.replace(c, "")`: remove every occurrence of the
character. -/
def removeChar (s : String) (c : Char) : String :=
  String.mk (s.data.filter (fun x => x ≠ c))

/-- The inner `parse_tokens` helper of `_parse_tokens_and_costs`
(api_aider.py lines 99-105): lowercase the string, expand a `k` suffix by
1000, else an `m` suffix by 1000000, else convert directly; `none` models
the ValueError raised by `float` on a malformed remainder. -/
def parse_tokens (token_str : String) : Option DecFloat :=
  let t := strToLower token_str
  if strContainsChar t 'k' then (pyFloat (removeChar t 'k')).map (fun d => decMulPow10 d 3)
  else if strContainsChar t 'm' then (pyFloat (removeChar t 'm')).map (fun d => decMulPow10 d 6)
  else pyFloat t

/-- Python exception kinds that can escape the embedded code paths.
`validationError` is the pydantic ValidationError raised when a model
field receives a value of the wrong type. -/
inductive PyErr where
  | valueError (msg : String)
  | keyError (key : String)
  | typeError (msg : String)
  | attributeError (msg : String)
  | validationError (msg : String)
  deriving Repr, DecidableEq

/-- Token and cost fields merged into a tool_output event on a successful
match of the token/cost pattern (api_aider.py lines 107-112); all four
are stored as strings, exactly as the source stores them. -/
structure TokenCostInfo where
  tokens_sent : String
  tokens_received : String
  cost_message : String
  cost_session : String
  deriving Repr, DecidableEq

/-- The files dictionary built by `format_files_for_input`, optionally
extended with an `edit_format` key. -/
structure FilesInfo where
  read_only_files : List String
  editable_files : List String
  edit_format : Option String := none
  deriving Repr, DecidableEq

/-- One entry of `APIInputOutput.current_response`: the tagged event
dictionaries appended by the bridge methods in api_aider.py. -/
inductive Event where
  | tool_output_ev (message : String) (info : Option TokenCostInfo)
  | error_ev (message : String)
  | warning_ev (message : String)
  | files_status_ev (files : FilesInfo)
  | assistant_ev (message : String) (timestamp : String)
  | confirm_ev (question : String) (answer : String) (subject : Option String)
  | prompt_ev (question : String) (subject : Option String)
  deriving Repr, DecidableEq

/-- The value of the `type` key of an event dictionary. -/
def Event.evType : Event → String
  | .tool_output_ev _ _ => "tool_output"
  | .error_ev _ => "error"
  | .warning_ev _ => "warning"
  | .files_status_ev _ => "files_status"
  | .assistant_ev _ _ => "assistant"
  | .confirm_ev _ _ _ => "confirm"
  | .prompt_ev _ _ => "prompt"

/-- The slice of the wrapped coder session that `update_files_status`
reads.  `get_inchat_relative_files` and the `get_rel_fname` mapping of
`abs_read_only_fnames` live in the external aider engine; we model the
coder as directly exposing their results. -/
structure Coder where
  inchat_relative_files : List String
  rel_read_only_files : List String
  deriving Repr, DecidableEq

/-- The mutable fields of `APIInputOutput` that the embedded methods
touch, plus the `self.root` attribute read by `format_files_for_input`
and an explicit working directory for `os.path.abspath`. -/
structure BridgeState where
  current_response : List Event
  files_added_in_current_chat : Nat
  current_edit_format : Option String
  current_files_info : Option FilesInfo
  coder : Option Coder
  root : String
  cwd : String
  deriving Repr, DecidableEq

/-- Python truthiness of the optional strings tested with a bare `if`
in the source (`None` and the empty string are falsy). -/
def optStrTruthy : Option String → Bool
  | none => false
  | some s => s ≠ ""

/-- `APIInputOutput.format_files_for_input` (api_aider.py lines 66-80):
sort the read-only names, keep the sorted editable names that are not in
the read-only input list, and render each read-only path as the shorter
of its absolute form (joined against `self.root`) and its relative form. -/
def format_files_for_input (root cwd : String)
    (rel_fnames rel_read_only_fnames : List String) : FilesInfo :=
  let read_only_files := pySorted rel_read_only_fnames
  let editable_files := (pySorted rel_fnames).filter (fun f => f ∉ rel_read_only_fnames)
  let ro_paths := read_only_files.map (fun rel_path =>
    let abs_path := abspath cwd (joinPath root rel_path)
    if abs_path.length < rel_path.length then abs_path else rel_path)
  { read_only_files := ro_paths, editable_files := editable_files }

/-- `APIInputOutput.update_files_status` (api_aider.py lines 50-64):
when a coder session is attached, snapshot its files through
`format_files_for_input`, tag on the current edit format when truthy,
store the snapshot and append a files_status event. -/
def update_files_status (st : BridgeState) : BridgeState :=
  match st.coder with
  | none => st
  | some coder =>
      let info0 := format_files_for_input st.root st.cwd
        coder.inchat_relative_files coder.rel_read_only_files
      let info := if optStrTruthy st.current_edit_format then
          { info0 with edit_format := st.current_edit_format }
        else info0
      { st with current_files_info := some info,
                current_response := st.current_response ++ [Event.files_status_ev info] }

/-- `APIInputOutput.tool_output` (api_aider.py lines 83-114) together
with `_parse_tokens_and_costs`.  On a pattern match the source first
updates the event dictionary with the token and cost fields (evaluating
`parse_tokens` on both groups, where a float conversion failure raises
ValueError before anything is appended), then calls
`update_files_status` (which appends the files_status event), and only
afterwards appends the tool_output event itself.  The chat-history side
effect of the base class is external and not modelled. -/
def tool_output (st : BridgeState) (message : String) (log_only : Bool := false) :
    Except PyErr BridgeState :=
  if log_only then .ok st
  else
    match searchTokens message.data with
    | none =>
        .ok { st with current_response :=
                st.current_response ++ [Event.tool_output_ev message none] }
    | some (g1, g2, g3, g4) =>
        match parse_tokens g1, parse_tokens g2 with
        | some q1, some q2 =>
            let info : TokenCostInfo :=
              { tokens_sent := toString (pyIntTrunc q1),
                tokens_received := toString (pyIntTrunc q2),
                cost_message := g3,
                cost_session := g4 }
            let st2 := update_files_status st
            .ok { st2 with current_response :=
                    st2.current_response ++ [Event.tool_output_ev message (some info)] }
        | _, _ => .error (.valueError "could not convert string to float")

/-- `APIInputOutput.tool_error` (api_aider.py lines 116-118). -/
def tool_error (st : BridgeState) (message : String) : BridgeState :=
  { st with current_response := st.current_response ++ [Event.error_ev message] }

/-- `APIInputOutput.tool_warning` (api_aider.py lines 120-122). -/
def tool_warning (st : BridgeState) (message : String) : BridgeState :=
  { st with current_response := st.current_response ++ [Event.warning_ev message] }

/-- `APIInputOutput.assistant_output` (api_aider.py lines 146-152); the
timestamp is produced by `datetime.now()`, an external effect passed in
as an argument. -/
def assistant_output (st : BridgeState) (message timestamp : String) : BridgeState :=
  { st with current_response :=
      st.current_response ++ [Event.assistant_ev message timestamp] }

/-- The file-add question test of `confirm_ask` (api_aider.py line 163):
by Python operator precedence this reads
`("Do you want to create" in question) or ("Add" in question and "to the chat" in question)`. -/
def is_add_file_question (question : String) : Bool :=
  strIn "Do you want to create" question ||
    (strIn "Add" question && strIn "to the chat" question)

/-- The warning message emitted when the file cap rejects an addition
(api_aider.py lines 165-166). -/
def file_limit_warning : String :=
  "File limit of 4 files per chat session exceeded. Rejecting additional file."

/-- `APIInputOutput.confirm_ask` (api_aider.py lines 154-171): append a
confirm event whose recorded answer is always the literal "Yes", then
auto-approve, except that a file-add question with the counter already at
4 or more is rejected after appending the warning event. -/
def confirm_ask (st : BridgeState) (question : String)
    (subject : Option String := none) : Bool × BridgeState :=
  let st := { st with current_response :=
      st.current_response ++ [Event.confirm_ev question "Yes" subject] }
  if is_add_file_question question then
    if 4 ≤ st.files_added_in_current_chat then
      (false, tool_warning st file_limit_warning)
    else
      (true, { st with files_added_in_current_chat := st.files_added_in_current_chat + 1 })
  else
    (true, st)

/-- `APIInputOutput.prompt_ask` (api_aider.py lines 173-179): append a
prompt event and return the default unconditionally. -/
def prompt_ask (st : BridgeState) (question : String) (default : String := "")
    (subject : Option String := none) : String × BridgeState :=
  (default,
   { st with current_response := st.current_response ++ [Event.prompt_ev question subject] })

/-- `APIInputOutput.get_input` (api_aider.py lines 124-144): reset the
file counter, record the edit format, snapshot the given file lists
(`rel_read_only_fnames` is the result of the external `get_rel_fname`
mapping of `abs_read_only_fnames`), append one files_status event, then
return the value pulled from the single-slot queue (passed in as
`queued_value`, since the queue producer is external). -/
def get_input (st : BridgeState) (rel_fnames rel_read_only_fnames : List String)
    (edit_format : Option String) (queued_value : String) : String × BridgeState :=
  let st := { st with files_added_in_current_chat := 0, current_edit_format := edit_format }
  let info0 := format_files_for_input st.root st.cwd rel_fnames rel_read_only_fnames
  let info := if optStrTruthy edit_format then { info0 with edit_format := edit_format }
    else info0
  (queued_value,
   { st with current_files_info := some info,
             current_response := st.current_response ++ [Event.files_status_ev info] })

/-- Parsed JSON values as Python `json.loads` produces them: `jint` for
numbers without fraction or exponent, `jfloat` otherwise (the numeric
value is modelled exactly as a rational where the source holds an IEEE
double), `jconst` for the `NaN`, `Infinity` and `-Infinity` literals the
Python decoder accepts (stored by their `str(...)` spelling), and
objects as insertion-ordered key/value lists with unique keys. -/
inductive JValue where
  | jnull
  | jbool (b : Bool)
  | jint (n : Int)
  | jfloat (q : ℚ)
  | jconst (name : String)
  | jstr (s : String)
  | jarr (elems : List JValue)
  | jobj (fields : List (String × JValue))

/-- Dictionary insertion with Python semantics: a repeated key keeps its
original position and takes the new value. -/
def objInsert (fields : List (String × JValue)) (k : String) (v : JValue) :
    List (String × JValue) :=
  if fields.any (fun p => p.1 = k) then
    fields.map (fun p => if p.1 = k then (k, v) else p)
  else fields ++ [(k, v)]

/-- Dictionary lookup (keys are unique by construction). -/
def objGet? (fields : List (String × JValue)) (k : String) : Option JValue :=
  (fields.find? (fun p => p.1 = k)).map (fun p => p.2)

/-- JSON insignificant whitespace (space, tab, newline, carriage return). -/
def skipJsonWs (cs : List Char) : List Char :=
  cs.dropWhile (fun c => c = ' ' ∨ c = '\t' ∨ c = '\n' ∨ c = '\r')

/-- Hexadecimal digit value. -/
def hexDigitVal (c : Char) : Option Nat :=
  if c.isDigit then some (c.toNat - 48)
  else if 'a' ≤ c ∧ c ≤ 'f' then some (c.toNat - 87)
  else if 'A' ≤ c ∧ c ≤ 'F' then some (c.toNat - 55)
  else none

/-- Body of a JSON string after the opening quote: standard escapes,
`\uXXXX` mapped to the scalar of that code unit (an unpaired surrogate
degenerates to the null scalar; the decoder joins surrogate pairs, an
approximation irrelevant to every input considered here), and raw
control characters rejected as strict `json.loads` does. -/
def parseStringBody (fuel : Nat) (cs : List Char) : Option (String × List Char) :=
  match fuel, cs with
  | 0, _ => none
  | _, [] => none
  | fuel + 1, c :: rest =>
    if c = '"' then some ("", rest)
    else if c = '\\' then
      match rest with
      | '"' :: r => (parseStringBody fuel r).map (fun p => ("\"" ++ p.1, p.2))
      | '\\' :: r => (parseStringBody fuel r).map (fun p => ("\\" ++ p.1, p.2))
      | '/' :: r => (parseStringBody fuel r).map (fun p => ("/" ++ p.1, p.2))
      | 'b' :: r => (parseStringBody fuel r).map (fun p => ("\x08" ++ p.1, p.2))
      | 'f' :: r => (parseStringBody fuel r).map (fun p => ("\x0c" ++ p.1, p.2))
      | 'n' :: r => (parseStringBody fuel r).map (fun p => ("\n" ++ p.1, p.2))
      | 'r' :: r => (parseStringBody fuel r).map (fun p => ("\r" ++ p.1, p.2))
      | 't' :: r => (parseStringBody fuel r).map (fun p => ("\t" ++ p.1, p.2))
      | 'u' :: h1 :: h2 :: h3 :: h4 :: r =>
          match hexDigitVal h1, hexDigitVal h2, hexDigitVal h3, hexDigitVal h4 with
          | some a, some b, some c, some d =>
              let code := a * 4096 + b * 256 + c * 16 + d
              (parseStringBody fuel r).map
                (fun p => (String.singleton (Char.ofNat code) ++ p.1, p.2))
          | _, _, _, _ => none
      | _ => none
    else if c.toNat < 32 then none
    else (parseStringBody fuel rest).map (fun p => (String.singleton c ++ p.1, p.2))

/-- The integer part of a JSON number: `0` or a nonzero digit followed
by digits (leading zeros are rejected, as in strict JSON). -/
def parseIntPart : List Char → Option (List Char × List Char)
  | [] => none
  | c :: r =>
    if c = '0' then some (['0'], r)
    else if c.isDigit then
      let ds := r.takeWhile Char.isDigit
      some (c :: ds, r.drop ds.length)
    else none

/-- A JSON number at the head of the input, following the decoder
grammar `-? int frac? exp?`; produces `jint` when neither fraction nor
exponent is present, `jfloat` otherwise. -/
def parseNumber (cs : List Char) : Option (JValue × List Char) :=
  let neg : Bool := match cs with
    | '-' :: _ => true
    | _ => false
  let cs1 := if neg then cs.drop 1 else cs
  match parseIntPart cs1 with
  | none => none
  | some (ip, cs2) =>
    let (fracDigits, cs3) := match cs2 with
      | '.' :: r =>
          let ds := r.takeWhile Char.isDigit
          if ds = [] then ([], cs2) else (ds, r.drop ds.length)
      | _ => ([], cs2)
    let hasFrac := fracDigits ≠ []
    let (expPart, cs4) := match cs3 with
      | 'e' :: r => (some r, cs3)
      | 'E' :: r => (some r, cs3)
      | _ => (none, cs3)
    match expPart with
    | some r0 =>
        let (eneg, r1) := match r0 with
          | '+' :: r => (false, r)
          | '-' :: r => (true, r)
          | _ => (false, r0)
        let eds := r1.takeWhile Char.isDigit
        if eds = [] then
          -- no valid exponent digits: the number ends before the e/E
          let base : ℚ := (digitsToNat ip : ℚ) +
            (digitsToNat fracDigits : ℚ) / (10 : ℚ) ^ fracDigits.length
          let signed : ℚ := if neg then -base else base
          if hasFrac then some (JValue.jfloat signed, cs3)
          else some (JValue.jint (if neg then -(digitsToNat ip : Int) else (digitsToNat ip : Int)), cs3)
        else
          let e : ℤ := if eneg then -(digitsToNat eds : ℤ) else (digitsToNat eds : ℤ)
          let base : ℚ := (digitsToNat ip : ℚ) +
            (digitsToNat fracDigits : ℚ) / (10 : ℚ) ^ fracDigits.length
          let v : ℚ := (if neg then -base else base) * (10 : ℚ) ^ e
          some (JValue.jfloat v, r1.drop eds.length)
    | none =>
        if hasFrac then
          let base : ℚ := (digitsToNat ip : ℚ) +
            (digitsToNat fracDigits : ℚ) / (10 : ℚ) ^ fracDigits.length
          some (JValue.jfloat (if neg then -base else base), cs3)
        else
          some (JValue.jint (if neg then -(digitsToNat ip : Int) else (digitsToNat ip : Int)), cs4)

mutual

/-- A JSON value at the head of the input (after skipping leading
whitespace), modelling the recursive descent of the Python decoder. -/
def parseValue : Nat → List Char → Option (JValue × List Char)
  | 0, _ => none
  | fuel + 1, cs0 =>
    let cs := skipJsonWs cs0
    match cs with
    | [] => none
    | '"' :: rest => (parseStringBody (rest.length + 1) rest).map
        (fun p => (JValue.jstr p.1, p.2))
    | '{' :: rest => parseMembers fuel rest
    | '[' :: rest => parseElems fuel rest
    | 'n' :: rest => (dropLiteral "ull".data rest).map (fun r => (JValue.jnull, r))
    | 't' :: rest => (dropLiteral "rue".data rest).map (fun r => (JValue.jbool true, r))
    | 'f' :: rest => (dropLiteral "alse".data rest).map (fun r => (JValue.jbool false, r))
    | 'N' :: rest => (dropLiteral "aN".data rest).map (fun r => (JValue.jconst "nan", r))
    | 'I' :: rest => (dropLiteral "nfinity".data rest).map (fun r => (JValue.jconst "inf", r))
    | '-' :: 'I' :: rest => (dropLiteral "nfinity".data rest).map
        (fun r => (JValue.jconst "-inf", r))
    | _ => parseNumber cs

/-- The members of a JSON object after the opening brace. -/
def parseMembers : Nat → List Char → Option (JValue × List Char)
  | 0, _ => none
  | fuel + 1, cs0 =>
    let cs := skipJsonWs cs0
    match cs with
    | '}' :: rest => some (JValue.jobj [], rest)
    | '"' :: rest =>
        match parseStringBody (rest.length + 1) rest with
        | none => none
        | some (k, cs1) =>
          match skipJsonWs cs1 with
          | ':' :: cs2 =>
            match parseValue fuel cs2 with
            | none => none
            | some (v, cs3) => parseMembersRest fuel (objInsert [] k v) cs3
          | _ => none
    | _ => none

/-- Further `, "key": value` members of an object, or the closing brace. -/
def parseMembersRest : Nat → List (String × JValue) → List Char →
    Option (JValue × List Char)
  | 0, _, _ => none
  | fuel + 1, acc, cs0 =>
    match skipJsonWs cs0 with
    | '}' :: rest => some (JValue.jobj acc, rest)
    | ',' :: cs1 =>
      match skipJsonWs cs1 with
      | '"' :: rest =>
        match parseStringBody (rest.length + 1) rest with
        | none => none
        | some (k, cs2) =>
          match skipJsonWs cs2 with
          | ':' :: cs3 =>
            match parseValue fuel cs3 with
            | none => none
            | some (v, cs4) => parseMembersRest fuel (objInsert acc k v) cs4
          | _ => none
      | _ => none
    | _ => none

/-- The elements of a JSON array after the opening bracket. -/
def parseElems : Nat → List Char → Option (JValue × List Char)
  | 0, _ => none
  | fuel + 1, cs0 =>
    match skipJsonWs cs0 with
    | ']' :: rest => some (JValue.jarr [], rest)
    | cs =>
      match parseValue fuel cs with
      | none => none
      | some (v, cs1) => parseElemsRest fuel [v] cs1

/-- Further `, value` elements of an array, or the closing bracket. -/
def parseElemsRest : Nat → List JValue → List Char → Option (JValue × List Char)
  | 0, _, _ => none
  | fuel + 1, acc, cs0 =>
    match skipJsonWs cs0 with
    | ']' :: rest => some (JValue.jarr acc, rest)
    | ',' :: cs1 =>
      match parseValue fuel cs1 with
      | none => none
      | some (v, cs2) => parseElemsRest fuel (acc ++ [v]) cs2
    | _ => none

end

/-- Models `json.loads`: parse one value and require only whitespace to
remain (2·length+2 fuel strictly bounds the recursion depth). -/
def loads (s : String) : Option JValue :=
  match parseValue (2 * s.length + 2) s.data with
  | some (v, rest) => if skipJsonWs rest = [] then some v else none
  | none => none

/-- Approximate rendering of a Python float value (the source repr is
the shortest round-tripping decimal of the IEEE double; only the
transcript text of exotic replies depends on it, never a theorem). -/
def pyFloatRepr (q : ℚ) : String :=
  if q.den = 1 then toString q.num ++ ".0"
  else toString q.num ++ "/" ++ toString q.den

mutual

/-- Python `repr` of a decoded JSON value: `None`, `True`, `False`,
decimal integers, single-quoted strings (quote and backslash escaping
inside the string is not reproduced; it cannot affect the substring
tests the source performs), and bracketed containers. -/
def pyRepr : JValue → String
  | .jnull => "None"
  | .jbool true => "True"
  | .jbool false => "False"
  | .jint n => toString n
  | .jfloat q => pyFloatRepr q
  | .jconst name => name
  | .jstr s => "'" ++ s ++ "'"
  | .jarr elems => "[" ++ pyReprList elems ++ "]"
  | .jobj fields => "\x7b" ++ pyReprFields fields ++ "\x7d"

/-- Comma-separated reprs of array elements. -/
def pyReprList : List JValue → String
  | [] => ""
  | [v] => pyRepr v
  | v :: rest => pyRepr v ++ ", " ++ pyReprList rest

/-- Comma-separated reprs of dictionary items. -/
def pyReprFields : List (String × JValue) → String
  | [] => ""
  | [p] => "'" ++ p.1 ++ "': " ++ pyRepr p.2
  | p :: rest => "'" ++ p.1 ++ "': " ++ pyRepr p.2 ++ ", " ++ pyReprFields rest

end

/-- Python `str` of a decoded JSON value: the string itself for strings,
`repr` otherwise. -/
def pyStrOf (v : JValue) : String :=
  match v with
  | .jstr s => s
  | _ => pyRepr v

/-- Subscripting a decoded JSON value with a string key, as
`response_json["type"]` does: KeyError on a dictionary without the key,
TypeError on any non-dictionary value (the source TypeError texts vary
by type; one text stands for them). -/
def pyIndex (v : JValue) (key : String) : Except PyErr JValue :=
  match v with
  | .jobj fields =>
      match objGet? fields key with
      | some x => .ok x
      | none => .error (.keyError key)
  | _ => .error (.typeError "value is not subscriptable by a string key")

/-- Python `==` between a decoded value and a string literal. -/
def jEqString (v : JValue) (s : String) : Bool :=
  match v with
  | .jstr t => t = s
  | _ => false

/-- Whether a decoded value is a string. -/
def JValue.isStr : JValue → Bool
  | .jstr _ => true
  | _ => false

/-- The error message of the ValueError raised by
`extract_json_from_response` (api_helpers.py line 74). -/
def extract_error_message : String :=
  "Could not extract valid JSON from response"

/-- `extract_json_from_response` (api_helpers.py lines 60-74): the
pattern `({.*})` with DOTALL matched by `re.search` spans from the first
opening brace to the last closing brace of the whole text (when the
latter lies strictly after the former); parse that substring, on failure
parse the entire text, on a second failure raise ValueError. -/
def extract_json_from_response (response_text : String) : Except String JValue :=
  let cs := response_text.data
  let attempt1 : Option JValue :=
    match cs.findIdx? (fun c => c = '{'), cs.reverse.findIdx? (fun c => c = '}') with
    | some i, some k =>
        let j := cs.length - 1 - k
        if i < j then loads (String.mk ((cs.drop i).take (j - i + 1))) else none
    | _, _ => none
  match attempt1 with
  | some v => .ok v
  | none =>
      match loads response_text with
      | some v => .ok v
      | none => .error extract_error_message

/-- One turn of the agent transcript: a `{"role": ..., "content": ...}`
dictionary. -/
structure ConversationTurn where
  role : String
  content : String
  deriving Repr, DecidableEq

/-- Decidable equality on `Except`, by cases on both sides. -/
instance exceptDecEq {ε α : Type} [DecidableEq ε] [DecidableEq α] :
    DecidableEq (Except ε α) := fun a b =>
  match a, b with
  | .ok x, .ok y =>
      if h : x = y then isTrue (by rw [h]) else isFalse (by intro hc; cases hc; exact h rfl)
  | .error x, .error y =>
      if h : x = y then isTrue (by rw [h]) else isFalse (by intro hc; cases hc; exact h rfl)
  | .ok _, .error _ => isFalse (by intro hc; cases hc)
  | .error _, .ok _ => isFalse (by intro hc; cases hc)

/-- Outcome of a `conversation` run: how many LLM calls were issued, how
many messages were dispatched into the I/O bridge, and either the Python
return value (`none` for the bare `return` taken on `/quit`, the
transcript for the normal loop exit) or an uncaught exception. -/
structure ConvResult where
  llm_calls : Nat
  dispatches : Nat
  outcome : Except PyErr (Option (List ConversationTurn))
  deriving Repr, DecidableEq

/-- The message text standing for the pydantic ValidationError raised by
`Message(content=...)` when the parsed aider content is not a string
(the `Message` model of api_models.py declares `content: str`; the exact
pydantic rendering is external, one text stands for it). -/
def validation_error_message : String :=
  "Message content is not a valid string"

/-- The iteration body and loop of `conversation` (api_helpers.py lines
83-110), indexed by the remaining iteration count.  `replies i` is the
content of the i-th LLM completion (the LLM is external);
`dispatch s` is the external composite
`json.dumps(chat_with_aider_api(Message(content=s)))` appended as the
next user turn after a non-quit aider command whose content is a
string.  A non-quit aider content that is not a string (null, number,
boolean, list or dictionary) fails validation at
`Message(content=response_json["content"])` (api_helpers.py line 105):
the pydantic ValidationError is outside the `except ValueError` and
propagates out of the loop. -/
def conversation_loop (replies : Nat → String) (dispatch : String → String) :
    Nat → Nat → List ConversationTurn → Nat → Nat → ConvResult
  | _, 0, messages, calls, disps => ⟨calls, disps, .ok (some messages)⟩
  | i, remaining + 1, messages, calls, disps =>
    let response_content := replies i
    let calls := calls + 1
    let messages := messages ++ [⟨"assistant", response_content⟩]
    match extract_json_from_response response_content with
    | .error _ => conversation_loop replies dispatch (i + 1) remaining messages calls disps
    | .ok response_json =>
      match pyIndex response_json "type" with
      | .error e => ⟨calls, disps, .error e⟩
      | .ok tv =>
        if jEqString tv "aider" then
          match pyIndex response_json "content" with
          | .error e => ⟨calls, disps, .error e⟩
          | .ok cv =>
            if jEqString cv "/quit" then ⟨calls, disps, .ok none⟩
            else
              match cv with
              | JValue.jstr content_str =>
                  conversation_loop replies dispatch (i + 1) remaining
                    (messages ++ [⟨"user", dispatch content_str⟩]) calls (disps + 1)
              | _ => ⟨calls, disps, .error (.validationError validation_error_message)⟩
        else if jEqString tv "perplexity" then
          match pyIndex response_json "content" with
          | .error e => ⟨calls, disps, .error e⟩
          | .ok cv =>
              conversation_loop replies dispatch (i + 1) remaining
                (messages ++ [⟨"user", pyStrOf cv⟩]) calls disps
        else conversation_loop replies dispatch (i + 1) remaining messages calls disps

/-- The system prompt content after `prompt.format(instruction=...)`
(api_helpers.py lines 7-57): doubled braces collapse to single braces
and the placeholder receives the instruction. -/
def system_prompt_content (instruction : String) : String :=
  "\nYou act as a human that have a LLM code assistant called aider. Whenever you ask aider to do something, say that \"I\" want to do something.\n" ++
  "You have AI code assistant called aider. Aider is a tool that helps you write code.\n" ++
  "You have to guide aider to write code for you. Discuss with aider what files to edit.\n" ++
  "Based on the ongoing conversation decide what to do next.\n" ++
  "Precisely check the previous user messages as this is output from aider.\n" ++
  "User message is a aider response, not human!!\n\n" ++
  "Your response should be in the following single JSON format:\n\n" ++
  "\x7b\n    \"type\": \"aider\",\n    \"content\": \"command or text to aider\"\n\x7d\n\n" ++
  "You have to follow these instructions to use with aider:\n" ++
  "<aider_information>\n" ++
  "Aider is a CLI tool (but rewritten to API) that helps you write code.\n" ++
  "By default, aider have map of the repository in its memory with some function names.\n" ++
  "Aider is USUALLY not able to edit files by himself. It usually needs to be added to the chat memory by you.\n\n" ++
  "Take a moment and think about which files will need to be changed. Aider can often figure out which files to edit all by itself, but the most efficient approach is for you to add the files to the chat.\n\n" ++
  "Just add the files you think need to be edited. Too much irrelevant code will distract and confuse the LLM. Aider uses a map of your entire git repo so is usually aware of relevant classes/functions/methods elsewhere in your code base.\n\n" ++
  "Discuss a plan first\n\n" ++
  "If you want aider to create a new file, add it to the repository first with /add <file>. This way aider knows this file exists and will write to it. Otherwise, aider might write the changes to an existing file. This can happen even if you ask for a new file, as LLMs tend to focus a lot on the existing information in their contexts.\n\n" ++
  "Add only one command at a time. You cannot combine commands in the same message which means you cannot do '/add <file>' and 'some text' in the same message.\n" ++
  "</aider_information>\n\n" ++
  "<aider_instructions>\n" ++
  "- normal text - normal text to conversate with aider about the project, files, edits and everything else.\n\n" ++
  "/add <file_name> - add new file to the chat\n\n" ++
  "/web <website_url> - Scrape a webpage, convert to markdown and send in a message\n\n" ++
  "/commit - commit changes to the project\n\n" ++
  "/quit - quit aider\n" ++
  "</aider_instructions>\n\n\n" ++
  "<human_goal>\n" ++ instruction ++ "\n</human_goal>\n\n" ++
  "Respon with SINGLE JSON object. Without any other text. Based on the ongoing conversation.\n"

/-- `conversation` (api_helpers.py lines 77-110): seed the transcript
with the formatted system prompt and run the 5-iteration loop. -/
def conversation (instruction : String) (replies : Nat → String)
    (dispatch : String → String) : ConvResult :=
  conversation_loop replies dispatch 0 5
    [⟨"system", system_prompt_content instruction⟩] 0 0

/-- The callbacks the wrapped engine performs against the bridge during
one `coder.run(with_message=...)` call, plus an exception it may raise.
The engine itself is an external collaborator; one run is modelled as
the script of bridge calls it makes. -/
inductive CoderAction where
  | act_tool_output (message : String) (log_only : Bool)
  | act_tool_error (message : String)
  | act_tool_warning (message : String)
  | act_assistant (message : String) (timestamp : String)
  | act_confirm (question : String) (subject : Option String)
  | act_prompt (question : String) (default : String) (subject : Option String)
  | act_raise (msg : String)
  deriving Repr, DecidableEq

/-- Execute an action script against the bridge: each callback mutates
the state through the embedded method; `act_raise` (or a ValueError
escaping `tool_output`) aborts the run with the exception text that
`str(e)` would carry. -/
def runActions (st : BridgeState) : List CoderAction → BridgeState × Option String
  | [] => (st, none)
  | a :: rest =>
    match a with
    | .act_raise m => (st, some m)
    | .act_tool_output msg lo =>
        match tool_output st msg lo with
        | .ok st2 => runActions st2 rest
        | .error _ => (st, some "could not convert string to float")
    | .act_tool_error m => runActions (tool_error st m) rest
    | .act_tool_warning m => runActions (tool_warning st m) rest
    | .act_assistant m ts => runActions (assistant_output st m ts) rest
    | .act_confirm q subj => runActions (confirm_ask st q subj).2 rest
    | .act_prompt q d subj => runActions (prompt_ask st q d subj).2 rest

/-- The dictionary returned by the dispatch entry point. -/
structure ChatResult where
  status : String
  responses : List Event
  error : Option String
  deriving Repr, DecidableEq

/-- `chat_with_aider_api` (api_aider.py lines 199-217): reject with HTTP
400 when no coder session is attached; otherwise clear the response
buffer, enqueue the message (the queue consumer is the external engine,
so the enqueue has no further effect in this model), run the engine, and
return success with the collected events, or catch any exception and
return an error result carrying the events collected so far. -/
def chat_with_aider_api (st : BridgeState) (message_content : String)
    (run : List CoderAction) : Except Nat (ChatResult × BridgeState) :=
  if st.coder = none then .error 400
  else
    let cleared := { st with current_response := ([] : List Event) }
    match runActions cleared run with
    | (st2, none) => .ok (⟨"success", st2.current_response, none⟩, st2)
    | (st2, some e) => .ok (⟨"error", st2.current_response, some e⟩, st2)

/-- An HTTP response as the PR publisher consumes it: the status code
and the already-decoded JSON body (`response.json()`). -/
structure HttpResponse where
  status_code : Nat
  body : JValue

/-- Python truthiness of a decoded JSON value. -/
def jTruthy : JValue → Bool
  | .jnull => false
  | .jbool b => b
  | .jint n => n ≠ 0
  | .jfloat q => q ≠ 0
  | .jconst _ => true
  | .jstr s => s ≠ ""
  | .jarr xs => ¬ xs.isEmpty
  | .jobj fs => ¬ fs.isEmpty

/-- The `.get(key, default)` method of a decoded dictionary;
AttributeError on any non-dictionary value. -/
def pyDictGet (v : JValue) (key : String) (default : JValue) : Except PyErr JValue :=
  match v with
  | .jobj fields => .ok ((objGet? fields key).getD default)
  | _ => .error (.attributeError "get")

/-- Iterating a decoded JSON value as the `for e in errors`
comprehension does: arrays yield elements, strings yield their
characters, dictionaries yield their keys, anything else raises
TypeError. -/
def pyIter : JValue → Except PyErr (List JValue)
  | .jarr xs => .ok xs
  | .jstr s => .ok (s.data.map (fun c => JValue.jstr (String.singleton c)))
  | .jobj fs => .ok (fs.map (fun p => JValue.jstr p.1))
  | _ => .error (.typeError "value is not iterable")

/-- The result dictionary built by `create_github_pull_request`; absent
keys are `none`. -/
structure PRResult where
  status : String
  message : String
  pull_request_url : Option String
  pull_request_error : Option String
  deriving Repr, DecidableEq

/-- Mapping over a list inside `Except`. -/
def exceptMapList (f : JValue → Except PyErr String) : List JValue → Except PyErr (List String)
  | [] => .ok []
  | x :: xs =>
    match f x, exceptMapList f xs with
    | .ok s, .ok rest => .ok (s :: rest)
    | .error e, _ => .error e
    | _, .error e => .error e

/-- The result-building tail of `create_github_pull_request`
(api_agent.py lines 157-174): success carries the `html_url` of the
response body (a missing key raises KeyError, uncaught in the source);
failure carries the host message plus the concatenated per-field error
details when the `errors` value is truthy. -/
def build_pr_result (branch : String) (r : HttpResponse) : Except PyErr PRResult :=
  let base : PRResult :=
    { status := if r.status_code = 201 then "success" else "error",
      message := "Repository ready on branch " ++ branch,
      pull_request_url := none, pull_request_error := none }
  if r.status_code = 201 then
    match pyIndex r.body "html_url" with
    | .error e => .error e
    | .ok u => .ok { base with pull_request_url := some (pyStrOf u) }
  else
    match pyDictGet r.body "message" (JValue.jstr "Unknown error") with
    | .error e => .error e
    | .ok msgVal =>
      match pyDictGet r.body "errors" (JValue.jarr []) with
      | .error e => .error e
      | .ok errsVal =>
        let detailsE : Except PyErr String :=
          if jTruthy errsVal then
            match pyIter errsVal with
            | .error e => .error e
            | .ok elems =>
              match exceptMapList
                  (fun e => match pyDictGet e "message" (JValue.jstr "") with
                    | .error err => .error err
                    | .ok m => .ok (pyStrOf m)) elems with
              | .error e => .error e
              | .ok parts => .ok (joinStrings "; " parts)
          else .ok ""
        match detailsE with
        | .error e => .error e
        | .ok details =>
          let errText := "Failed to create PR: " ++ pyStrOf msgVal
          let errText := if details ≠ "" then errText ++ " - Details: " ++ details else errText
          .ok { base with pull_request_error := some errText }

/-- Whether the first PR creation response makes the source retry with
base `master` (api_agent.py line 152): status not 201 and the substring
`base` occurring in `str(response_json.get("errors", []))`; a non-201
response whose body is not a dictionary instead raises AttributeError
inside the condition. -/
def base_retry_condition (r : HttpResponse) : Bool :=
  match r.body with
  | .jobj fields =>
      r.status_code ≠ 201 && strIn "base" (pyStrOf ((objGet? fields "errors").getD (.jarr [])))
  | _ => false

/-- `create_github_pull_request` (api_agent.py lines 105-174), with the
two REST calls supplied by oracles: `verify_status` is the status of the
branch-existence GET, and `post b` the response to the PR creation POST
with base branch `b`.  The returned list records the base branch of each
POST issued, in order. -/
def create_github_pull_request (branch : String) (verify_status : Nat)
    (post : String → HttpResponse) : List String × Except PyErr PRResult :=
  if verify_status ≠ 200 then
    ([], .ok { status := "error",
               message := "Branch " ++ branch ++ " does not exist or is not accessible",
               pull_request_url := none, pull_request_error := none })
  else
    let r1 := post "main"
    if r1.status_code = 201 then
      (["main"], build_pr_result branch r1)
    else
      match r1.body with
      | .jobj fields =>
        if strIn "base" (pyStrOf ((objGet? fields "errors").getD (.jarr []))) then
          (["main", "master"], build_pr_result branch (post "master"))
        else
          (["main"], build_pr_result branch r1)
      | _ => (["main"], .error (.attributeError "get"))

/-- Outcome of one git checkout command, an external effect: success or
a GitCommandError carrying the captured standard-error text. -/
inductive GitOutcome where
  | success
  | failure (stderr : String)
  deriving Repr, DecidableEq

/-- The GitCommandError raised out of `setup_repository` on the branch
step, carrying the captured error text of the failed command. -/
structure GitCommandError where
  stderr : String
  deriving Repr, DecidableEq

/-- Modelled from the spec: GitPython renders `str(GitCommandError)` as
a description of the failed command that embeds the captured stderr; the
exact wording lives in the external library, so we model a rendering
that contains the stderr text. -/
def str_git_command_error (e : GitCommandError) : String :=
  "Git command failed with stderr: " ++ e.stderr

/-- The branch-creation step of the fresh-checkout `setup_repository`
(api_agent.py lines 62-68): check out `origin/main` into the new branch;
on a GitCommandError retry from `origin/master`; a failure of the retry
propagates (the outer handler at lines 100-102 re-raises unchanged).
Returns the refs attempted, in order, and the outcome. -/
def create_branch_from_default (main_checkout master_checkout : GitOutcome) :
    List String × Except GitCommandError Unit :=
  match main_checkout with
  | .success => (["origin/main"], .ok ())
  | .failure _ =>
      match master_checkout with
      | .success => (["origin/main", "origin/master"], .ok ())
      | .failure e2 => (["origin/main", "origin/master"], .error ⟨e2⟩)

/-- The `except git.exc.GitCommandError` handler of `agent_instruction`
(api_agent.py lines 220-221): the HTTP 500 detail string prefixed
`Git operation failed: ` around `str(e)`. -/
def agent_instruction_git_error_detail (e : GitCommandError) : String :=
  "Git operation failed: " ++ str_git_command_error e

/-- A list is a prefix of itself (boolean form). -/
lemma isPrefixOf_self (l : List Char) : l.isPrefixOf l = true := by
  induction l with
  | nil => rfl
  | cons c cs ih => simp [List.isPrefixOf, ih]

/-- `listInfix` finds a needle that sits at the end of the haystack. -/
lemma listInfix_append_self (l pre : List Char) : listInfix l (pre ++ l) = true := by
  induction pre with
  | nil =>
      cases l with
      | nil => rfl
      | cons c cs => simp [listInfix, isPrefixOf_self]
  | cons c cs ih => simp [listInfix, ih]

/-- Insertion preserves membership. -/
lemma mem_insertSorted (a x : String) (l : List String) :
    a ∈ insertSorted x l ↔ a = x ∨ a ∈ l := by
  induction l with
  | nil => simp [insertSorted]
  | cons y ys ih =>
      by_cases h : pyStrLe y x = true <;>
        simp only [insertSorted, h, if_true, Bool.false_eq_true, if_false, List.mem_cons, ih] <;>
        tauto

/-- The insertion-sort fold preserves membership. -/
lemma mem_pySorted_fold (a : String) (l acc : List String) :
    a ∈ l.foldl (fun acc x => insertSorted x acc) acc ↔ a ∈ acc ∨ a ∈ l := by
  induction l generalizing acc with
  | nil => simp
  | cons x xs ih => simp [ih, mem_insertSorted]; tauto

/-- `pySorted` preserves membership. -/
lemma mem_pySorted (a : String) (l : List String) : a ∈ pySorted l ↔ a ∈ l := by
  simp [pySorted, mem_pySorted_fold]

/-- Concrete initial bridge state used by the closed theorems below:
empty buffer, zero file counter, a coder session with one editable file. -/
def sample_state : BridgeState :=
  { current_response := [], files_added_in_current_chat := 0,
    current_edit_format := none, current_files_info := none,
    coder := some { inchat_relative_files := ["a.py"], rel_read_only_files := [] },
    root := "/repo", cwd := "/" }

/-- A tool_output message matching the token/cost pattern. -/
def token_message : String :=
  "Tokens: 2.5k sent, 3k received. Cost: $0.0015 message, $0.0015 session."

/-- C8 counterexample.  With root `/`, an editable input `/a/b` and a
read-only input `a/./b`, the read-only path is rendered by its shorter
absolute form `/a/b`, which also appears verbatim in `editable_files`:
the snapshot lists the same path in both lists, refuting the claim as
stated over all input lists. -/
theorem files_snapshot_duplicate_path :
    format_files_for_input "/" "/" ["/a/b"] ["a/./b"] =
      { read_only_files := ["/a/b"], editable_files := ["/a/b"], edit_format := none } ∧
    "/a/b" ∈ (format_files_for_input "/" "/" ["/a/b"] ["a/./b"]).read_only_files ∧
    "/a/b" ∈ (format_files_for_input "/" "/" ["/a/b"] ["a/./b"]).editable_files := by
  refine ⟨by decide, by decide, by decide⟩

/-- C8 (amended): a path present in the read-only input list is excluded
from `editable_files` even when it also appears among the editable
inputs; consequently the two output lists share no element whenever the
read-only paths are emitted in their relative form (no absolute-form
shortening applied). -/
theorem files_snapshot_exclusion :
    (∀ root cwd rel_fnames ro f,
        f ∈ (format_files_for_input root cwd rel_fnames ro).editable_files → f ∉ ro) ∧
    (∀ root cwd rel_fnames ro,
        (format_files_for_input root cwd rel_fnames ro).read_only_files = pySorted ro →
        ∀ f, f ∈ (format_files_for_input root cwd rel_fnames ro).editable_files →
          f ∉ (format_files_for_input root cwd rel_fnames ro).read_only_files) := by
  constructor
  · intro root cwd rel_fnames ro f hf
    simp only [format_files_for_input, List.mem_filter, decide_eq_true_eq] at hf
    exact hf.2
  · intro root cwd rel_fnames ro hro f hf hmem
    have hnot : f ∉ ro := by
      simp only [format_files_for_input, List.mem_filter, decide_eq_true_eq] at hf
      exact hf.2
    rw [hro, mem_pySorted] at hmem
    exact hnot hmem

/-- C8 witness: instantiating the exclusion theorem at concrete lists. -/
theorem files_snapshot_exclusion_witness :
    "b.py" ∈ (format_files_for_input "/repo" "/" ["a.py", "b.py"] ["a.py"]).editable_files ∧
    "b.py" ∉ ["a.py"] :=
  ⟨by decide, files_snapshot_exclusion.1 "/repo" "/" ["a.py", "b.py"] ["a.py"] "b.py" (by decide)⟩

/-- C3 counterexample.  The spec example `1.2m` uses a lowercase `m`,
which is outside the pattern class `[\d\.kM]`: the message does not
match the token/cost pattern at all, so no token counts (and no value
1200000) are extracted and the event is appended bare. -/
theorem lowercase_m_no_match :
    searchTokens "Tokens: 2.5k sent, 1.2m received. Cost: $0.01 message, $0.02 session.".data
      = none ∧
    tool_output sample_state
        "Tokens: 2.5k sent, 1.2m received. Cost: $0.01 message, $0.02 session." false =
      .ok { sample_state with current_response :=
        [Event.tool_output_ev
          "Tokens: 2.5k sent, 1.2m received. Cost: $0.01 message, $0.02 session." none] } := by
  refine ⟨by decide, by decide⟩

/-- C3 (amended): the pattern accepts a lowercase `k` and an uppercase
`M` suffix; on a match the suffix is lowercased and expanded exactly
(`2.5k` to 2500, `1.2M` to 1200000) and the two cost figures are carried
over as strings into the tool_output event. -/
theorem token_suffix_expansion :
    (parse_tokens "2.5k").map pyIntTrunc = some 2500 ∧
    (parse_tokens "1.2M").map pyIntTrunc = some 1200000 ∧
    searchTokens "Tokens: 2.5k sent, 1.2M received. Cost: $0.01 message, $0.02 session.".data
      = some ("2.5k", "1.2M", "0.01", "0.02") ∧
    (tool_output sample_state
        "Tokens: 2.5k sent, 1.2M received. Cost: $0.01 message, $0.02 session." false).map
      (fun st => st.current_response) =
      .ok [Event.files_status_ev
             { read_only_files := [], editable_files := ["a.py"], edit_format := none },
           Event.tool_output_ev
             "Tokens: 2.5k sent, 1.2M received. Cost: $0.01 message, $0.02 session."
             (some { tokens_sent := "2500", tokens_received := "1200000",
                     cost_message := "0.01", cost_session := "0.02" })] := by
  refine ⟨by decide, by decide, by decide, by decide⟩

/-- C2 counterexample.  On a matching message the files_status snapshot
enters the buffer immediately BEFORE the tool_output event, not after:
`_parse_tokens_and_costs` calls `update_files_status` while the
tool_output dictionary is appended only after that call returns. -/
theorem tool_output_snapshot_precedes :
    (tool_output sample_state token_message false).map
      (fun st => st.current_response.map Event.evType) =
      .ok ["files_status", "tool_output"] ∧
    (["files_status", "tool_output"] : List String) ≠ ["tool_output", "files_status"] := by
  refine ⟨by decide, by decide⟩

/-- C2 (amended): with a coder session attached, a tool_output message
matching the token/cost pattern (with well-formed token numbers) appends
a files_status event immediately BEFORE the enriched tool_output event,
in the same dispatch; a message that does not match appends only the
bare tool_output event and no files_status from this path. -/
theorem tool_output_files_status_order :
    ∀ st msg, st.coder.isSome = true →
      (searchTokens msg.data = none →
        tool_output st msg false = .ok { st with current_response :=
          st.current_response ++ [Event.tool_output_ev msg none] }) ∧
      (∀ g1 g2 g3 g4 q1 q2, searchTokens msg.data = some (g1, g2, g3, g4) →
        parse_tokens g1 = some q1 → parse_tokens g2 = some q2 →
        ∃ fi, (tool_output st msg false).map (fun st2 => st2.current_response) =
          .ok (st.current_response ++
            [Event.files_status_ev fi,
             Event.tool_output_ev msg (some
               { tokens_sent := toString (pyIntTrunc q1),
                 tokens_received := toString (pyIntTrunc q2),
                 cost_message := g3, cost_session := g4 })])) := by
  intro st msg hc
  constructor
  · intro hsearch
    simp [tool_output, hsearch]
  · intro g1 g2 g3 g4 q1 q2 hsearch h1 h2
    obtain ⟨c, hcoder⟩ := Option.isSome_iff_exists.mp hc
    refine ⟨if optStrTruthy st.current_edit_format then
        { format_files_for_input st.root st.cwd c.inchat_relative_files c.rel_read_only_files
            with edit_format := st.current_edit_format }
      else format_files_for_input st.root st.cwd c.inchat_relative_files c.rel_read_only_files,
      ?_⟩
    simp only [tool_output, hsearch, h1, h2, update_files_status, hcoder, Except.map]
    simp [List.append_assoc]

/-- C2 witness: the order theorem applied to the concrete sample state
and a concrete matching message. -/
theorem tool_output_files_status_order_witness :
    ∃ fi, (tool_output sample_state token_message false).map
        (fun st2 => st2.current_response) =
      .ok ([] ++
        [Event.files_status_ev fi,
         Event.tool_output_ev token_message (some
           { tokens_sent := toString (pyIntTrunc { mant := 25000, scale := 1 }),
             tokens_received := toString (pyIntTrunc { mant := 3000, scale := 0 }),
             cost_message := "0.0015", cost_session := "0.0015" })]) :=
  (tool_output_files_status_order sample_state token_message (by decide)).2
    "2.5k" "3k" "0.0015" "0.0015" { mant := 25000, scale := 1 } { mant := 3000, scale := 0 }
    (by decide) (by decide) (by decide)

/-- Feed a list of confirmation questions through `confirm_ask` one
after another, collecting the returned booleans. -/
def confirm_run (st : BridgeState) : List (String × Option String) → List Bool × BridgeState
  | [] => ([], st)
  | (q, subj) :: rest =>
    let r := confirm_ask st q subj
    let rs := confirm_run r.2 rest
    (r.1 :: rs.1, rs.2)

/-- A sample state whose file counter already reached the cap. -/
def capped_state : BridgeState :=
  { sample_state with files_added_in_current_chat := 4 }

/-- C5: within one dispatch cycle, a file-add confirmation with the
counter below 4 is approved and increments the counter (so the 1st-4th
matching confirmations approve), one at the cap or beyond is rejected
and appends a warning containing `File limit of 4 files`, `get_input`
resets the counter to 0, every non-matching confirmation is approved,
and a run of five matching confirmations from a fresh cycle returns
exactly four approvals followed by one rejection. -/
theorem confirm_policy_file_cap :
    (∀ st : BridgeState, ∀ q subj, is_add_file_question q = true →
        st.files_added_in_current_chat < 4 →
        (confirm_ask st q subj).1 = true ∧
        (confirm_ask st q subj).2.files_added_in_current_chat =
          st.files_added_in_current_chat + 1 ∧
        (confirm_ask st q subj).2.current_response =
          st.current_response ++ [Event.confirm_ev q "Yes" subj]) ∧
    (∀ st : BridgeState, ∀ q subj, is_add_file_question q = true →
        4 ≤ st.files_added_in_current_chat →
        (confirm_ask st q subj).1 = false ∧
        (confirm_ask st q subj).2.current_response =
          st.current_response ++
            [Event.confirm_ev q "Yes" subj, Event.warning_ev file_limit_warning] ∧
        (confirm_ask st q subj).2.files_added_in_current_chat =
          st.files_added_in_current_chat) ∧
    strIn "File limit of 4 files" file_limit_warning = true ∧
    (∀ st : BridgeState, ∀ q subj, is_add_file_question q = false →
        confirm_ask st q subj = (true, { st with current_response :=
          st.current_response ++ [Event.confirm_ev q "Yes" subj] })) ∧
    (∀ st rel ro ef qv, ((get_input st rel ro ef qv).2).files_added_in_current_chat = 0) ∧
    (confirm_run sample_state (List.replicate 5 ("Add f.py to the chat?", none))).1 =
      [true, true, true, true, false] := by
  refine ⟨?_, ?_, by decide, ?_, ?_, by decide⟩
  · intro st q subj hq hlt
    have hge : ¬ 4 ≤ st.files_added_in_current_chat := by omega
    refine ⟨?_, ?_, ?_⟩ <;> simp [confirm_ask, hq, hge]
  · intro st q subj hq hge
    refine ⟨?_, ?_, ?_⟩ <;> simp [confirm_ask, hq, hge, tool_warning]
  · intro st q subj hq
    simp [confirm_ask, hq]
  · intro st rel ro ef qv
    simp [get_input]

/-- C5 witness: the rejection conjunct applied at a concrete state whose
counter is at the cap. -/
theorem confirm_policy_file_cap_witness :
    (confirm_ask capped_state "Add x.py to the chat?" none).1 = false ∧
    (confirm_ask capped_state "Add x.py to the chat?" none).2.current_response =
      capped_state.current_response ++
        [Event.confirm_ev "Add x.py to the chat?" "Yes" none,
         Event.warning_ev file_limit_warning] ∧
    (confirm_ask capped_state "Add x.py to the chat?" none).2.files_added_in_current_chat =
      capped_state.files_added_in_current_chat :=
  confirm_policy_file_cap.2.1 capped_state "Add x.py to the chat?" none (by decide) (by decide)

/-- C10: every call to `confirm_ask` appends a confirm event whose
recorded answer field is the literal `Yes`, including the calls the
file-add cap causes to return `False`: the recorded answer can
contradict the boolean actually returned to the wrapped tool. -/
theorem confirm_event_answer_yes :
    ∀ st : BridgeState, ∀ q subj,
      (∃ rest, (confirm_ask st q subj).2.current_response =
        st.current_response ++ Event.confirm_ev q "Yes" subj :: rest) ∧
      (is_add_file_question q = true → 4 ≤ st.files_added_in_current_chat →
        (confirm_ask st q subj).1 = false) := by
  intro st q subj
  constructor
  · by_cases hq : is_add_file_question q = true
    · by_cases hge : 4 ≤ st.files_added_in_current_chat
      · exact ⟨[Event.warning_ev file_limit_warning],
          by simp [confirm_ask, hq, hge, tool_warning]⟩
      · exact ⟨[], by simp [confirm_ask, hq, hge]⟩
    · exact ⟨[], by simp [confirm_ask, hq]⟩
  · intro hq hge
    simp [confirm_ask, hq, hge, tool_warning]

/-- C10 witness: a rejected call still records answer `Yes`. -/
theorem confirm_event_answer_yes_witness :
    (∃ rest, (confirm_ask capped_state "Add y.py to the chat?" none).2.current_response =
      capped_state.current_response ++
        Event.confirm_ev "Add y.py to the chat?" "Yes" none :: rest) ∧
    (confirm_ask capped_state "Add y.py to the chat?" none).1 = false :=
  ⟨(confirm_event_answer_yes capped_state "Add y.py to the chat?" none).1,
   (confirm_event_answer_yes capped_state "Add y.py to the chat?" none).2 (by decide) (by decide)⟩

/-- C6: a 201 creation response triggers no retry; a non-201 response
whose `errors` payload mentions `base` triggers exactly one retry with
base branch `master`; a non-201 response not satisfying the base
condition triggers no retry. -/
theorem pull_request_base_fallback :
    ∀ branch verify_status post,
      (verify_status = 200 → (post "main").status_code = 201 →
        (create_github_pull_request branch verify_status post).1 = ["main"]) ∧
      (verify_status = 200 → (post "main").status_code ≠ 201 →
        base_retry_condition (post "main") = true →
        (create_github_pull_request branch verify_status post).1 = ["main", "master"] ∧
        (create_github_pull_request branch verify_status post).2 =
          build_pr_result branch (post "master")) ∧
      (verify_status = 200 → base_retry_condition (post "main") = false →
        (create_github_pull_request branch verify_status post).1 = ["main"]) := by
  intro branch verify_status post
  refine ⟨?_, ?_, ?_⟩
  · intro hv h201
    simp [create_github_pull_request, hv, h201]
  · intro hv hn hcond
    unfold base_retry_condition at hcond
    cases hb : (post "main").body with
    | jobj fields =>
        rw [hb] at hcond
        have hstr := (Bool.and_eq_true _ _).mp hcond
        constructor <;> simp [create_github_pull_request, hv, hn, hb, hstr.2]
    | jnull => rw [hb] at hcond; exact absurd hcond (by simp)
    | jbool b => rw [hb] at hcond; exact absurd hcond (by simp)
    | jint n => rw [hb] at hcond; exact absurd hcond (by simp)
    | jfloat q => rw [hb] at hcond; exact absurd hcond (by simp)
    | jconst c => rw [hb] at hcond; exact absurd hcond (by simp)
    | jstr s => rw [hb] at hcond; exact absurd hcond (by simp)
    | jarr xs => rw [hb] at hcond; exact absurd hcond (by simp)
  · intro hv hcond
    unfold base_retry_condition at hcond
    by_cases h201 : (post "main").status_code = 201
    · simp [create_github_pull_request, hv, h201]
    · cases hb : (post "main").body with
      | jobj fields =>
          rw [hb] at hcond
          have : strIn "base" (pyStrOf ((objGet? fields "errors").getD (.jarr []))) = false := by
            rcases Bool.and_eq_false_iff.mp hcond with h | h
            · exact absurd (by simpa using h) h201
            · exact h
          simp [create_github_pull_request, hv, h201, hb, this]
      | jnull => simp [create_github_pull_request, hv, h201, hb]
      | jbool b => simp [create_github_pull_request, hv, h201, hb]
      | jint n => simp [create_github_pull_request, hv, h201, hb]
      | jfloat q => simp [create_github_pull_request, hv, h201, hb]
      | jconst c => simp [create_github_pull_request, hv, h201, hb]
      | jstr s => simp [create_github_pull_request, hv, h201, hb]
      | jarr xs => simp [create_github_pull_request, hv, h201, hb]

/-- A successful PR creation response. -/
def pr_ok_response : HttpResponse :=
  { status_code := 201,
    body := .jobj [("html_url", .jstr "https://github.com/o/r/pull/1")] }

/-- A 422 rejection whose errors mention the base field. -/
def pr_base_err_response : HttpResponse :=
  { status_code := 422,
    body := .jobj [("message", .jstr "Validation Failed"),
                   ("errors", .jarr [.jobj [("field", .jstr "base"),
                                            ("message", .jstr "invalid base")]])] }

/-- The POST oracle used by the C6 witness: base `main` is rejected for
its base value, base `master` succeeds. -/
def pr_post_oracle : String → HttpResponse :=
  fun b => if b = "main" then pr_base_err_response else pr_ok_response

/-- C6 witness: the fallback theorem applied at the concrete oracle. -/
theorem pull_request_base_fallback_witness :
    (create_github_pull_request "br" 200 pr_post_oracle).1 = ["main", "master"] ∧
    (create_github_pull_request "br" 200 pr_post_oracle).2 =
      build_pr_result "br" (pr_post_oracle "master") :=
  (pull_request_base_fallback "br" 200 pr_post_oracle).2.1 rfl (by decide) (by decide)

/-- C7: if the checkout of `origin/main` fails, `origin/master` is
attempted before any failure is reported; if both fail, the
GitCommandError of the second attempt propagates, and the endpoint
surfaces it as an HTTP detail string beginning `Git operation failed: `
and containing the captured error text of the failed command. -/
theorem branch_checkout_fallback :
    ∀ s1 s2 : String,
      create_branch_from_default (.failure s1) .success =
        (["origin/main", "origin/master"], .ok ()) ∧
      create_branch_from_default (.failure s1) (.failure s2) =
        (["origin/main", "origin/master"], .error ⟨s2⟩) ∧
      agent_instruction_git_error_detail ⟨s2⟩ =
        "Git operation failed: " ++ str_git_command_error ⟨s2⟩ ∧
      strIn s2 (agent_instruction_git_error_detail ⟨s2⟩) = true := by
  intro s1 s2
  refine ⟨rfl, rfl, rfl, ?_⟩
  show listInfix s2.data
    ("Git operation failed: " ++ ("Git command failed with stderr: " ++ s2)).data = true
  rw [String.data_append, String.data_append, ← List.append_assoc]
  exact listInfix_append_self _ _

/-- C7 witness: the fallback theorem at concrete error texts. -/
theorem branch_checkout_fallback_witness :
    create_branch_from_default (.failure "no main ref") (.failure "no master ref") =
      (["origin/main", "origin/master"], .error ⟨"no master ref"⟩) ∧
    strIn "no master ref" (agent_instruction_git_error_detail ⟨"no master ref"⟩) = true :=
  ⟨(branch_checkout_fallback "no main ref" "no master ref").2.1,
   (branch_checkout_fallback "no main ref" "no master ref").2.2.2⟩

/-- Executing a concatenated action script runs the second part from the
state the first part reached, unless the first part raised. -/
lemma runActions_append (pre rest : List CoderAction) : ∀ st : BridgeState,
    runActions st (pre ++ rest) =
      match runActions st pre with
      | (st1, none) => runActions st1 rest
      | (st1, some e) => (st1, some e) := by
  induction pre with
  | nil => intro st; simp [runActions]
  | cons a as ih =>
      intro st
      cases a with
      | act_raise m => simp [runActions]
      | act_tool_output msg lo =>
          simp only [List.cons_append, runActions]
          cases htoo : tool_output st msg lo with
          | ok st2 => simpa using ih st2
          | error e => simp
      | act_tool_error m => simpa [runActions] using ih (tool_error st m)
      | act_tool_warning m => simpa [runActions] using ih (tool_warning st m)
      | act_assistant m ts => simpa [runActions] using ih (assistant_output st m ts)
      | act_confirm q subj => simpa [runActions] using ih (confirm_ask st q subj).2
      | act_prompt q d subj => simpa [runActions] using ih (prompt_ask st q d subj).2

/-- C9: the response buffer is cleared at the start of each dispatch (the
result does not depend on the incoming buffer); a run that completes
returns status `success` with every collected event; a run that raises
after a clean prefix is caught at the dispatch boundary and returned as
status `error` with the exception text and exactly the events collected
before the failure. -/
theorem chat_dispatch_error_boundary :
    ∀ st : BridgeState, ∀ msg run, st.coder ≠ none →
      (∀ r : List Event,
        chat_with_aider_api { st with current_response := r } msg run =
          chat_with_aider_api st msg run) ∧
      (∀ st1, runActions { st with current_response := ([] : List Event) } run = (st1, none) →
        chat_with_aider_api st msg run =
          .ok (⟨"success", st1.current_response, none⟩, st1)) ∧
      (∀ pre e post st1, run = pre ++ CoderAction.act_raise e :: post →
        runActions { st with current_response := ([] : List Event) } pre = (st1, none) →
        chat_with_aider_api st msg run =
          .ok (⟨"error", st1.current_response, some e⟩, st1)) := by
  intro st msg run hc
  refine ⟨?_, ?_, ?_⟩
  · intro r
    simp [chat_with_aider_api]
  · intro st1 hrun
    simp [chat_with_aider_api, hc, hrun]
  · intro pre e post st1 hrunIs hpre
    subst hrunIs
    simp [chat_with_aider_api, hc, runActions_append, hpre, runActions]

/-- An action script that collects one error event and then raises. -/
def boom_run : List CoderAction :=
  [CoderAction.act_tool_error "step1", CoderAction.act_raise "boom",
   CoderAction.act_tool_warning "never"]

/-- C9 witness: the boundary theorem applied at a concrete state and
script that raises mid-run, returning the partial event list. -/
theorem chat_dispatch_error_boundary_witness :
    chat_with_aider_api sample_state "hi" boom_run =
      .ok (⟨"error", [Event.error_ev "step1"], some "boom"⟩,
           { sample_state with current_response := [Event.error_ev "step1"] }) :=
  (chat_dispatch_error_boundary sample_state "hi" boom_run (by decide)).2.2
    [CoderAction.act_tool_error "step1"] "boom" [CoderAction.act_tool_warning "never"]
    { sample_state with current_response := [Event.error_ev "step1"] }
    (by decide) (by decide)

/-- Whether an LLM reply is the quit command: it parses to a dictionary
whose `type` is `aider` and whose `content` is `/quit`. -/
def is_quit_reply (r : String) : Bool :=
  match extract_json_from_response r with
  | .error _ => false
  | .ok v =>
    match pyIndex v "type" with
    | .error _ => false
    | .ok tv =>
      if jEqString tv "aider" then
        match pyIndex v "content" with
        | .error _ => false
        | .ok cv => jEqString cv "/quit"
      else false

/-- Whether an LLM reply makes the loop iteration terminate the run:
either it quits, or its parsed value raises on the `type` or `content`
subscript (KeyError on a dictionary without the key, TypeError on a
non-dictionary), or its aider content is a non-string non-quit value,
which fails pydantic validation at `Message(content=...)`.  Replies
that fail JSON extraction do NOT terminate. -/
def reply_terminates (r : String) : Bool :=
  match extract_json_from_response r with
  | .error _ => false
  | .ok v =>
    match pyIndex v "type" with
    | .error _ => true
    | .ok tv =>
      if jEqString tv "aider" then
        match pyIndex v "content" with
        | .error _ => true
        | .ok cv => if cv.isStr then jEqString cv "/quit" else true
      else if jEqString tv "perplexity" then
        match pyIndex v "content" with
        | .error _ => true
        | .ok _ => false
      else false

/-- Whether an LLM reply parses to an aider command whose content is a
non-string value: the loop then reaches `Message(content=...)` and the
pydantic ValidationError propagates. -/
def is_nonstring_aider_content (r : String) : Bool :=
  match extract_json_from_response r with
  | .error _ => false
  | .ok v =>
    match pyIndex v "type" with
    | .error _ => false
    | .ok tv =>
      if jEqString tv "aider" then
        match pyIndex v "content" with
        | .error _ => false
        | .ok cv => ¬ cv.isStr
      else false

/-- A quitting reply makes the loop return `None` on that iteration
after exactly one further LLM call. -/
lemma conversation_loop_step_quit (replies : Nat → String) (dispatch : String → String)
    (i r : Nat) (messages : List ConversationTurn) (calls disps : Nat)
    (h : is_quit_reply (replies i) = true) :
    conversation_loop replies dispatch i (r + 1) messages calls disps =
      ⟨calls + 1, disps, .ok none⟩ := by
  unfold is_quit_reply at h
  cases hE : extract_json_from_response (replies i) with
  | error e => rw [hE] at h; simp at h
  | ok v =>
    rw [hE] at h
    dsimp only at h
    cases hT : pyIndex v "type" with
    | error e => rw [hT] at h; simp at h
    | ok tv =>
      rw [hT] at h
      dsimp only at h
      by_cases hA : jEqString tv "aider" = true
      · rw [if_pos hA] at h
        cases hC : pyIndex v "content" with
        | error e => rw [hC] at h; simp at h
        | ok cv =>
          rw [hC] at h
          dsimp only at h
          simp [conversation_loop, hE, hT, hA, hC, h]
      · rw [if_neg hA] at h; simp at h

/-- A reply whose aider content is a non-string value makes the loop
raise the pydantic ValidationError on that iteration, after one further
LLM call. -/
lemma conversation_loop_step_validation (replies : Nat → String) (dispatch : String → String)
    (i r : Nat) (messages : List ConversationTurn) (calls disps : Nat)
    (h : is_nonstring_aider_content (replies i) = true) :
    conversation_loop replies dispatch i (r + 1) messages calls disps =
      ⟨calls + 1, disps, .error (.validationError validation_error_message)⟩ := by
  unfold is_nonstring_aider_content at h
  cases hE : extract_json_from_response (replies i) with
  | error e => rw [hE] at h; simp at h
  | ok v =>
    rw [hE] at h
    dsimp only at h
    cases hT : pyIndex v "type" with
    | error e => rw [hT] at h; simp at h
    | ok tv =>
      rw [hT] at h
      dsimp only at h
      by_cases hA : jEqString tv "aider" = true
      · rw [if_pos hA] at h
        cases hC : pyIndex v "content" with
        | error e => rw [hC] at h; simp at h
        | ok cv =>
          rw [hC] at h
          dsimp only at h
          cases cv with
          | jstr s => simp [JValue.isStr] at h
          | jnull =>
              have hQ : jEqString JValue.jnull "/quit" = false := rfl
              simp [conversation_loop, hE, hT, hA, hC, hQ]
          | jbool b =>
              have hQ : jEqString (JValue.jbool b) "/quit" = false := rfl
              simp [conversation_loop, hE, hT, hA, hC, hQ]
          | jint n =>
              have hQ : jEqString (JValue.jint n) "/quit" = false := rfl
              simp [conversation_loop, hE, hT, hA, hC, hQ]
          | jfloat q =>
              have hQ : jEqString (JValue.jfloat q) "/quit" = false := rfl
              simp [conversation_loop, hE, hT, hA, hC, hQ]
          | jconst c =>
              have hQ : jEqString (JValue.jconst c) "/quit" = false := rfl
              simp [conversation_loop, hE, hT, hA, hC, hQ]
          | jarr xs =>
              have hQ : jEqString (JValue.jarr xs) "/quit" = false := rfl
              simp [conversation_loop, hE, hT, hA, hC, hQ]
          | jobj fields =>
              have hQ : jEqString (JValue.jobj fields) "/quit" = false := rfl
              simp [conversation_loop, hE, hT, hA, hC, hQ]
      · rw [if_neg hA] at h; simp at h

/-- A non-terminating reply advances the loop one iteration: the
assistant turn (and possibly one user turn) is appended, the call count
increments, and the loop continues. -/
lemma conversation_loop_step_cont (replies : Nat → String) (dispatch : String → String)
    (i r : Nat) (messages : List ConversationTurn) (calls disps : Nat)
    (h : reply_terminates (replies i) = false) :
    ∃ extra disps2, conversation_loop replies dispatch i (r + 1) messages calls disps =
      conversation_loop replies dispatch (i + 1) r
        (messages ++ ⟨"assistant", replies i⟩ :: extra) (calls + 1) disps2 := by
  cases hE : extract_json_from_response (replies i) with
  | error e =>
      exact ⟨[], disps, by simp [conversation_loop, hE]⟩
  | ok v =>
    unfold reply_terminates at h
    rw [hE] at h
    dsimp only at h
    cases hT : pyIndex v "type" with
    | error e => rw [hT] at h; simp at h
    | ok tv =>
      rw [hT] at h
      dsimp only at h
      by_cases hA : jEqString tv "aider" = true
      · rw [if_pos hA] at h
        cases hC : pyIndex v "content" with
        | error e => rw [hC] at h; simp at h
        | ok cv =>
          rw [hC] at h
          dsimp only at h
          cases cv with
          | jstr s =>
              simp only [JValue.isStr, if_true] at h
              exact ⟨[⟨"user", dispatch s⟩], disps + 1,
                by simp [conversation_loop, hE, hT, hA, hC, h]⟩
          | jnull => simp [JValue.isStr] at h
          | jbool b => simp [JValue.isStr] at h
          | jint n => simp [JValue.isStr] at h
          | jfloat q => simp [JValue.isStr] at h
          | jconst c => simp [JValue.isStr] at h
          | jarr xs => simp [JValue.isStr] at h
          | jobj fields => simp [JValue.isStr] at h
      · rw [if_neg hA] at h
        by_cases hP : jEqString tv "perplexity" = true
        · rw [if_pos hP] at h
          cases hC : pyIndex v "content" with
          | error e => rw [hC] at h; simp at h
          | ok cv =>
            exact ⟨[⟨"user", pyStrOf cv⟩], disps,
              by simp [conversation_loop, hE, hT, hA, hP, hC]⟩
        · exact ⟨[], disps, by simp [conversation_loop, hE, hT, hA, hP]⟩

/-- The loop performs at most `remaining` further LLM calls. -/
lemma conversation_loop_calls_le (replies : Nat → String) (dispatch : String → String) :
    ∀ r i messages calls disps,
      (conversation_loop replies dispatch i r messages calls disps).llm_calls ≤ calls + r := by
  intro r
  induction r with
  | zero => intro i messages calls disps; simp [conversation_loop]
  | succ n ih =>
      intro i messages calls disps
      simp only [conversation_loop]
      cases hE : extract_json_from_response (replies i) with
      | error e => exact le_trans (ih _ _ _ _) (by omega)
      | ok v =>
        dsimp only
        cases hT : pyIndex v "type" with
        | error e => simp
        | ok tv =>
          dsimp only
          by_cases hA : jEqString tv "aider" = true
          · simp only [hA, if_true]
            cases hC : pyIndex v "content" with
            | error e => simp
            | ok cv =>
              dsimp only
              by_cases hQ : jEqString cv "/quit" = true
              · simp only [hQ, if_true]; simp
              · simp only [hQ, Bool.false_eq_true, if_false]
                cases cv with
                | jstr s => exact le_trans (ih _ _ _ _) (by omega)
                | jnull => simp
                | jbool b => simp
                | jint n => simp
                | jfloat q => simp
                | jconst c => simp
                | jarr xs => simp
                | jobj fields => simp
          · simp only [hA, Bool.false_eq_true, if_false]
            by_cases hP : jEqString tv "perplexity" = true
            · simp only [hP, if_true]
              cases hC : pyIndex v "content" with
              | error e => simp
              | ok cv => dsimp only; exact le_trans (ih _ _ _ _) (by omega)
            · simp only [hP, Bool.false_eq_true, if_false]
              exact le_trans (ih _ _ _ _) (by omega)

/-- A run of non-terminating replies exhausts its iteration budget,
returning the transcript: the incoming messages are kept as a prefix and
every assistant turn of the window is present. -/
lemma conversation_loop_no_term (replies : Nat → String) (dispatch : String → String) :
    ∀ r i messages calls disps,
      (∀ j, j < r → reply_terminates (replies (i + j)) = false) →
      ∃ t, (conversation_loop replies dispatch i r messages calls disps).outcome =
            .ok (some t) ∧
        (conversation_loop replies dispatch i r messages calls disps).llm_calls = calls + r ∧
        (∃ u, t = messages ++ u) ∧
        ∀ j, j < r → (⟨"assistant", replies (i + j)⟩ : ConversationTurn) ∈ t := by
  intro r
  induction r with
  | zero =>
      intro i messages calls disps _
      refine ⟨messages, by simp [conversation_loop], by simp [conversation_loop], ⟨[], by simp⟩,
        ?_⟩
      intro j hj
      omega
  | succ n ih =>
      intro i messages calls disps h
      obtain ⟨extra, disps2, hstep⟩ :=
        conversation_loop_step_cont replies dispatch i n messages calls disps
          (by simpa using h 0 (by omega))
      rw [hstep]
      obtain ⟨t, hout, hcalls, ⟨u, hu⟩, hmem⟩ :=
        ih (i + 1) (messages ++ ⟨"assistant", replies i⟩ :: extra) (calls + 1) disps2
          (by
            intro j hj
            have := h (j + 1) (by omega)
            have e : i + (j + 1) = i + 1 + j := by omega
            rwa [e] at this)
      refine ⟨t, hout, by omega, ⟨⟨"assistant", replies i⟩ :: extra ++ u, by
        rw [hu]; simp⟩, ?_⟩
      intro j hj
      cases j with
      | zero =>
          rw [hu]
          simp
      | succ k =>
          have e : i + (k + 1) = i + 1 + k := by omega
          rw [e]
          exact hmem k (by omega)

/-- A run whose first `k` replies do not terminate and whose reply `k`
quits returns `None` after exactly `k + 1` LLM calls. -/
lemma conversation_loop_quit_at (replies : Nat → String) (dispatch : String → String) :
    ∀ k r i messages calls disps, k < r →
      (∀ j, j < k → reply_terminates (replies (i + j)) = false) →
      is_quit_reply (replies (i + k)) = true →
      (conversation_loop replies dispatch i r messages calls disps).outcome = .ok none ∧
      (conversation_loop replies dispatch i r messages calls disps).llm_calls =
        calls + k + 1 := by
  intro k
  induction k with
  | zero =>
      intro r i messages calls disps hkr h hq
      cases r with
      | zero => omega
      | succ m =>
          rw [conversation_loop_step_quit replies dispatch i m messages calls disps
            (by simpa using hq)]
          exact ⟨rfl, rfl⟩
  | succ n ih =>
      intro r i messages calls disps hkr h hq
      cases r with
      | zero => omega
      | succ m =>
          obtain ⟨extra, disps2, hstep⟩ :=
            conversation_loop_step_cont replies dispatch i m messages calls disps
              (by simpa using h 0 (by omega))
          rw [hstep]
          have hq2 : is_quit_reply (replies (i + 1 + n)) = true := by
            have e : i + (n + 1) = i + 1 + n := by omega
            rwa [e] at hq
          have hsh : ∀ j, j < n → reply_terminates (replies (i + 1 + j)) = false := by
            intro j hj
            have := h (j + 1) (by omega)
            have e : i + (j + 1) = i + 1 + j := by omega
            rwa [e] at this
          obtain ⟨hout, hcalls⟩ :=
            ih m (i + 1) (messages ++ ⟨"assistant", replies i⟩ :: extra) (calls + 1) disps2
              (by omega) hsh hq2
          exact ⟨hout, by omega⟩

/-- A run whose first `k` replies do not terminate and whose reply `k`
carries a non-string aider content raises the ValidationError after
exactly `k + 1` LLM calls. -/
lemma conversation_loop_validation_at (replies : Nat → String) (dispatch : String → String) :
    ∀ k r i messages calls disps, k < r →
      (∀ j, j < k → reply_terminates (replies (i + j)) = false) →
      is_nonstring_aider_content (replies (i + k)) = true →
      (conversation_loop replies dispatch i r messages calls disps).outcome =
        .error (.validationError validation_error_message) ∧
      (conversation_loop replies dispatch i r messages calls disps).llm_calls =
        calls + k + 1 := by
  intro k
  induction k with
  | zero =>
      intro r i messages calls disps hkr h hv
      cases r with
      | zero => omega
      | succ m =>
          rw [conversation_loop_step_validation replies dispatch i m messages calls disps
            (by simpa using hv)]
          exact ⟨rfl, rfl⟩
  | succ n ih =>
      intro r i messages calls disps hkr h hv
      cases r with
      | zero => omega
      | succ m =>
          obtain ⟨extra, disps2, hstep⟩ :=
            conversation_loop_step_cont replies dispatch i m messages calls disps
              (by simpa using h 0 (by omega))
          rw [hstep]
          have hv2 : is_nonstring_aider_content (replies (i + 1 + n)) = true := by
            have e : i + (n + 1) = i + 1 + n := by omega
            rwa [e] at hv
          have hsh : ∀ j, j < n → reply_terminates (replies (i + 1 + j)) = false := by
            intro j hj
            have := h (j + 1) (by omega)
            have e : i + (j + 1) = i + 1 + j := by omega
            rwa [e] at this
          obtain ⟨hout, hcalls⟩ :=
            ih m (i + 1) (messages ++ ⟨"assistant", replies i⟩ :: extra) (calls + 1) disps2
              (by omega) hsh hv2
          exact ⟨hout, by omega⟩

/-- A run of replies that all fail JSON extraction performs every
iteration with no dispatch, appending each malformed assistant turn. -/
lemma conversation_loop_all_invalid (replies : Nat → String) (dispatch : String → String) :
    ∀ r i messages calls disps,
      (∀ j, j < r →
        extract_json_from_response (replies (i + j)) = .error extract_error_message) →
      conversation_loop replies dispatch i r messages calls disps =
        ⟨calls + r, disps,
         .ok (some (messages ++
           (List.range r).map (fun j => ⟨"assistant", replies (i + j)⟩)))⟩ := by
  intro r
  induction r with
  | zero => intro i messages calls disps _; simp [conversation_loop]
  | succ n ih =>
      intro i messages calls disps h
      have h0 := h 0 (by omega)
      simp only [Nat.add_zero] at h0
      simp only [conversation_loop, h0]
      rw [ih (i + 1) _ (calls + 1) disps (by
        intro j hj
        have := h (j + 1) (by omega)
        have e : i + (j + 1) = i + 1 + j := by omega
        rwa [e] at this)]
      have hlist :
          (messages ++ [(⟨"assistant", replies i⟩ : ConversationTurn)]) ++
            (List.range n).map (fun j => (⟨"assistant", replies (i + 1 + j)⟩ : ConversationTurn)) =
          messages ++
            (List.range (n + 1)).map (fun j => (⟨"assistant", replies (i + j)⟩ : ConversationTurn)) := by
        rw [List.range_succ_eq_map, List.map_cons, List.map_map, List.append_assoc]
        simp only [List.cons_append, List.nil_append, Nat.add_zero]
        congr 2
        apply List.map_congr_left
        intro j _
        simp only [Function.comp_apply]
        congr 2
        omega
      rw [hlist]
      congr 1
      omega

/-- C1 counterexample.  An LLM reply parsing to
`{"type": "aider", "content": "/quit"}` on the first iteration ends the
loop after exactly one LLM call, but the bare `return` yields `None`:
the accumulated transcript (system turn plus the quitting assistant
turn) is NOT returned, refuting the claim that the loop returns the
transcript on quit. -/
theorem conversation_quit_returns_none :
    (conversation "do the task"
        (fun _ => "\x7b\"type\": \"aider\", \"content\": \"/quit\"\x7d")
        (fun _ => "")).outcome = .ok none ∧
    (conversation "do the task"
        (fun _ => "\x7b\"type\": \"aider\", \"content\": \"/quit\"\x7d")
        (fun _ => "")).llm_calls = 1 ∧
    (Except.ok none : Except PyErr (Option (List ConversationTurn))) ≠
      .ok (some [⟨"system", system_prompt_content "do the task"⟩,
                 ⟨"assistant", "\x7b\"type\": \"aider\", \"content\": \"/quit\"\x7d"⟩]) := by
  refine ⟨rfl, rfl, by simp⟩

/-- C1 (amended): a reply parsing to the aider `/quit` command ends the
loop on that iteration without further LLM calls but returns `None`,
discarding the transcript; every run performs at most 5 LLM calls, never
6; a run in which no iteration terminates — neither quits, nor raises on
a missing or non-dictionary `type`/`content`, nor carries a non-string
aider content (which fails pydantic validation at `Message(content=...)`)
— exhausts its 5 iterations and returns the transcript, headed by the
system turn and containing all five assistant turns; and a non-string
aider content after a non-terminating prefix raises the ValidationError
out of the loop on that iteration. -/
theorem conversation_termination (instruction : String) (replies : Nat → String)
    (dispatch : String → String) :
    (conversation instruction replies dispatch).llm_calls ≤ 5 ∧
    (∀ k, k < 5 → (∀ j, j < k → reply_terminates (replies j) = false) →
      is_quit_reply (replies k) = true →
      (conversation instruction replies dispatch).outcome = .ok none ∧
      (conversation instruction replies dispatch).llm_calls = k + 1) ∧
    ((∀ j, j < 5 → reply_terminates (replies j) = false) →
      ∃ t, (conversation instruction replies dispatch).outcome = .ok (some t) ∧
        (conversation instruction replies dispatch).llm_calls = 5 ∧
        t.head? = some ⟨"system", system_prompt_content instruction⟩ ∧
        ∀ j, j < 5 → (⟨"assistant", replies j⟩ : ConversationTurn) ∈ t) ∧
    (∀ k, k < 5 → (∀ j, j < k → reply_terminates (replies j) = false) →
      is_nonstring_aider_content (replies k) = true →
      (conversation instruction replies dispatch).outcome =
        .error (.validationError validation_error_message) ∧
      (conversation instruction replies dispatch).llm_calls = k + 1) := by
  refine ⟨?_, ?_, ?_, ?_⟩
  · simpa using conversation_loop_calls_le replies dispatch 5 0
      [⟨"system", system_prompt_content instruction⟩] 0 0
  · intro k hk hpre hq
    have := conversation_loop_quit_at replies dispatch k 5 0
      [⟨"system", system_prompt_content instruction⟩] 0 0 hk
      (by intro j hj; simpa using hpre j hj) (by simpa using hq)
    exact ⟨this.1, by simpa using this.2⟩
  · intro h
    obtain ⟨t, hout, hcalls, ⟨u, hu⟩, hmem⟩ :=
      conversation_loop_no_term replies dispatch 5 0
        [⟨"system", system_prompt_content instruction⟩] 0 0
        (by intro j hj; simpa using h j hj)
    refine ⟨t, hout, by simpa using hcalls, by rw [hu]; simp, ?_⟩
    intro j hj
    simpa using hmem j hj
  · intro k hk hpre hv
    have := conversation_loop_validation_at replies dispatch k 5 0
      [⟨"system", system_prompt_content instruction⟩] 0 0 hk
      (by intro j hj; simpa using hpre j hj) (by simpa using hv)
    exact ⟨this.1, by simpa using this.2⟩

/-- The quitting reply oracle used by the C1 witness. -/
def quit_replies : Nat → String :=
  fun _ => "\x7b\"type\": \"aider\", \"content\": \"/quit\"\x7d"

/-- An oracle whose replies carry a non-string aider content, used by
the C1 witness to exercise the ValidationError conjunct. -/
def null_content_replies : Nat → String :=
  fun _ => "\x7b\"type\": \"aider\", \"content\": null\x7d"

/-- C1 witness: the termination theorem applied at the quitting oracle
(quitting on the first iteration) and at the null-content oracle
(raising the ValidationError on the first iteration). -/
theorem conversation_termination_witness :
    ((conversation "w1" quit_replies (fun _ => "")).outcome = .ok none ∧
     (conversation "w1" quit_replies (fun _ => "")).llm_calls = 0 + 1) ∧
    ((conversation "w1v" null_content_replies (fun _ => "")).outcome =
        .error (.validationError validation_error_message) ∧
     (conversation "w1v" null_content_replies (fun _ => "")).llm_calls = 0 + 1) :=
  ⟨(conversation_termination "w1" quit_replies (fun _ => "")).2.1 0 (by omega)
      (fun j hj => absurd hj (Nat.not_lt_zero j)) (by rfl),
   (conversation_termination "w1v" null_content_replies (fun _ => "")).2.2.2 0 (by omega)
      (fun j hj => absurd hj (Nat.not_lt_zero j)) (by rfl)⟩

/-- C4 counterexample.  The reply `{}` is valid JSON, so extraction
succeeds, but the missing `type` key raises a KeyError that propagates
out of the loop after one LLM call, refuting the claim that a reply with
a missing expected field is recovered locally. -/
theorem conversation_missing_type_raises :
    extract_json_from_response "\x7b\x7d" = .ok (.jobj []) ∧
    (conversation "task" (fun _ => "\x7b\x7d") (fun _ => "")).outcome =
      .error (.keyError "type") ∧
    (conversation "task" (fun _ => "\x7b\x7d") (fun _ => "")).llm_calls = 1 := by
  refine ⟨rfl, rfl, rfl⟩

/-- C4 (amended): a reply that is not valid JSON (extraction raises the
ValueError) is recovered locally: dispatch is skipped for that iteration
and the loop continues, the malformed assistant turn remaining in the
transcript; a run of five such replies makes all five LLM calls, zero
dispatches, and returns the transcript with every malformed turn.  (A
reply that is valid JSON but lacks the `type` key instead raises
KeyError out of the loop, as the counterexample shows.) -/
theorem conversation_invalid_json_skipped (instruction : String) (replies : Nat → String)
    (dispatch : String → String)
    (h : ∀ j, j < 5 → extract_json_from_response (replies j) = .error extract_error_message) :
    conversation instruction replies dispatch =
      ⟨5, 0, .ok (some (⟨"system", system_prompt_content instruction⟩ ::
        (List.range 5).map (fun j => (⟨"assistant", replies j⟩ : ConversationTurn))))⟩ := by
  unfold conversation
  rw [conversation_loop_all_invalid replies dispatch 5 0 _ 0 0
    (by intro j hj; simpa using h j hj)]
  simp

/-- C4 witness: the recovery theorem applied at an oracle whose replies
never contain valid JSON. -/
theorem conversation_invalid_json_skipped_witness :
    conversation "w4" (fun _ => "no json here") (fun _ => "") =
      ⟨5, 0, .ok (some (⟨"system", system_prompt_content "w4"⟩ ::
        (List.range 5).map (fun _ =>
          (⟨"assistant", "no json here"⟩ : ConversationTurn))))⟩ :=
  conversation_invalid_json_skipped "w4" (fun _ => "no json here") (fun _ => "")
    (fun _ _ => rfl)

end AiderSpec
